import Mathlib

/-!
Shallow embedding of `yarn_api_client` (files `base.py` and
`resource_manager.py`) for checking the natural-language specification.

Python objects are modelled by explicit attribute records: an attribute is
either absent (reading it raises `AttributeError`) or set to a value, which
may itself be Python `None` (modelled by `Option`).  Fallible code returns
`Except`.  The modules `errors.py`, `constants.py`, `uri.py` and
`hadoop_conf.py` of the repository are not available; the few facts needed
from them are modelled from the spec and marked as such.
-/

/-- Python attribute slot: `absent` models an attribute that was never
assigned (access raises `AttributeError`); `val v` models an assigned
attribute with value `v` (for attributes that can hold Python `None`,
`v` has an `Option` type with `none` standing for `None`). -/
inductive Attr (α : Type) where
  | absent : Attr α
  | val (v : α) : Attr α
deriving DecidableEq

/-- Python exceptions that `json.load` can raise in the model: parse
failures are `ValueError` (CPython's `json.JSONDecodeError` is a subclass
of `ValueError`); anything else is `otherExc`. -/
inductive PyExc where
  | valueError (msg : String) : PyExc
  | otherExc (msg : String) : PyExc
deriving DecidableEq

/-- Errors surfaced by the client.  `attributeError` models Python's
built-in `AttributeError` on reading an absent attribute.
`configurationError`, `apiError` and `illegalArgumentError` are, modelled
from the spec, the exception classes of the missing `errors.py`
(message-carrying exception types).  `pyExc` embeds a propagated
`json.load` exception. -/
inductive PyErr where
  | attributeError (nm : String) : PyErr
  | configurationError (msg : String) : PyErr
  | apiError (msg : String) : PyErr
  | illegalArgumentError (msg : String) : PyErr
  | pyExc (e : PyExc) : PyErr
deriving DecidableEq

/-- Python truthiness of an optional string: `None` and `''` are falsy. -/
def pyTruthyStr (o : Option String) : Bool :=
  match o with
  | none => false
  | some s => !(s == "")

/-- Python `x or d` for an optional string `x`: yields `d` when `x` is
`None` or empty. -/
def pyOrStr (o : Option String) (d : String) : String :=
  match o with
  | none => d
  | some s => if s == "" then d else s

/-- Python `dict.__setitem__` / single-key `update` on an association list
kept in insertion order: an existing key keeps its position and gets the
new value, a new key is appended. -/
def pyDictInsert {α : Type} (d : List (String × α)) (k : String) (v : α) :
    List (String × α) :=
  if d.any (fun p => p.1 == k) then
    d.map (fun p => if p.1 == k then (k, v) else p)
  else
    d ++ [(k, v)]

/-- Python `dict(pairs)`: fold the pairs into an empty dict, later
occurrences of a key overwriting earlier ones. -/
def pyDictOfPairs {α : Type} (l : List (String × α)) : List (String × α) :=
  l.foldl (fun d p => pyDictInsert d p.1 p.2) []

/-- Dictionary lookup on the association-list model. -/
def dictLookup {α : Type} (d : List (String × α)) (k : String) : Option α :=
  (d.find? (fun p => p.1 == k)).map Prod.snd

/-- Header mapping: a Python dict from header names to values. -/
abbrev HDict := List (String × String)

/-- Lookup through an optional header dict (`None` has no entries). -/
def optLookup (h : Option HDict) (k : String) : Option String :=
  match h with
  | none => none
  | some d => dictLookup d k

/-- UTF-8 encoding of one character, as a list of byte values; models
Python's `bytes(s, 'utf-8')` character by character. -/
def utf8EncodeChar (c : Char) : List Nat :=
  let n := c.toNat
  if n < 0x80 then [n]
  else if n < 0x800 then
    [0xC0 ||| (n >>> 6), 0x80 ||| (n &&& 0x3F)]
  else if n < 0x10000 then
    [0xE0 ||| (n >>> 12), 0x80 ||| ((n >>> 6) &&& 0x3F), 0x80 ||| (n &&& 0x3F)]
  else
    [0xF0 ||| (n >>> 18), 0x80 ||| ((n >>> 12) &&& 0x3F),
     0x80 ||| ((n >>> 6) &&& 0x3F), 0x80 ||| (n &&& 0x3F)]

/-- UTF-8 encoding of a string as a list of byte values. -/
def utf8Encode (s : String) : List Nat :=
  s.data.flatMap utf8EncodeChar

/-- The base64 alphabet. -/
def b64Table : List Char :=
  "ABCDEFGHIJKLMNOPQRSTUVWXYZabcdefghijklmnopqrstuvwxyz0123456789+/".data

/-- The base64 digit for a 6-bit value. -/
def b64Char (n : Nat) : Char := b64Table.getD n 'A'

/-- Standard base64 encoding of a byte list, with `=` padding; models
Python's `base64.b64encode(...).decode('ascii')`. -/
def b64encode : List Nat → String
  | [] => ""
  | [a] =>
    String.mk [b64Char (a >>> 2), b64Char ((a &&& 3) <<< 4), '=', '=']
  | [a, b] =>
    String.mk [b64Char (a >>> 2), b64Char (((a &&& 3) <<< 4) ||| (b >>> 4)),
               b64Char ((b &&& 15) <<< 2), '=']
  | a :: b :: c :: rest =>
    String.mk [b64Char (a >>> 2), b64Char (((a &&& 3) <<< 4) ||| (b >>> 4)),
               b64Char (((b &&& 15) <<< 2) ||| (c >>> 6)), b64Char (c &&& 63)]
      ++ b64encode rest

/-- Uppercase hexadecimal digit. -/
def hexDigitChar (n : Nat) : Char :=
  if n < 10 then Char.ofNat (48 + n) else Char.ofNat (55 + n)

/-- Characters `urllib` leaves unescaped in query strings. -/
def isUrlSafe (c : Char) : Bool :=
  c.isAlphanum || c == '_' || c == '.' || c == '-' || c == '~'

/-- Percent-escape of one byte value. -/
def percentByte (n : Nat) : String :=
  "%" ++ String.mk [hexDigitChar (n / 16), hexDigitChar (n % 16)]

/-- Model of `urllib.parse.quote_plus` on one string. -/
def quotePlus (s : String) : String :=
  String.join (s.data.map (fun c =>
    if isUrlSafe c then String.mk [c]
    else if c == ' ' then "+"
    else String.join ((utf8EncodeChar c).map percentByte)))

/-- Model of `urllib.parse.urlencode` over the keyword-argument pairs; the
empty mapping encodes to the empty string. -/
def urlencode (args : List (String × String)) : String :=
  String.intercalate "&" (args.map (fun p => quotePlus p.1 ++ "=" ++ quotePlus p.2))

/-- The data held by a `Response` wrapper: either a decoded JSON value or
the raw response handle (`base.py`, class `Response`). -/
inductive RespData (J ρ : Type) where
  | decoded (j : J) : RespData J ρ
  | raw (handle : ρ) : RespData J ρ
deriving DecidableEq

/-- Embedding of `Response.__init__` (`base.py` lines 21-27): try
`json.load(http_response)` and store the parsed value; on `ValueError`
store the raw response object; any other exception propagates.  The
behaviour of `json.load` itself is external and passed in as `jsonLoad`. -/
def Response.init {J ρ : Type} (jsonLoad : ρ → Except PyExc J) (r : ρ) :
    Except PyExc (RespData J ρ) :=
  match jsonLoad r with
  | Except.ok j => Except.ok (RespData.decoded j)
  | Except.error (PyExc.valueError _) => Except.ok (RespData.raw r)
  | Except.error e => Except.error e

/-- Embedding of `BaseYarnAPI.construct_parameters` (`base.py` lines
75-77): `dict((key, value) for key, value in arguments if value is not
None)`.  Values use `Option` with `none` for Python `None`. -/
def construct_parameters {α : Type} (arguments : List (String × Option α)) :
    List (String × Option α) :=
  pyDictOfPairs (arguments.filter (fun p => p.2.isSome))

/-- Modelled from the spec: the missing `uri.py`'s `Uri` parses a
`scheme://hostname:port/path` endpoint into optional components (each may
be absent from the URI, giving Python `None`). -/
structure UriParts where
  scheme : Option String
  hostname : Option String
  port : Option String
  path : Option String
deriving DecidableEq

/-- Attribute state of a client object.  `BaseYarnAPI` (`base.py`) reads
`address`, `port`, `timeout`, `username` and `password`;
`ResourceManager.__init__` (`resource_manager.py`) assigns `timeout`,
`hostname`, `port`, `apiEndpoint` and, in the explicit-endpoint branch,
`scheme`, `username` and `password`.  No code in the repository ever
assigns `address`. -/
structure RMState where
  address : Attr (Option String)
  hostname : Attr (Option String)
  port : Attr (Option String)
  timeout : Attr Nat
  username : Attr (Option String)
  password : Attr (Option String)
  scheme : Attr String
  apiEndpoint : Attr String
deriving DecidableEq

/-- The Python default of the constructor's `timeout` parameter. -/
def defaultTimeout : Nat := 30

/-- Embedding of `ResourceManager.__init__` (`resource_manager.py` lines
27-41).  `uri` is the (spec-modelled) parse of `serviceEndpoint` when one
is given; `disc` is the `(host, port)` pair that the spec-modelled
discovery collaborator `get_resource_manager_host_port()` returns. -/
def ResourceManager.init (serviceEndpoint : Option UriParts)
    (username password : Option String) (timeout : Nat)
    (disc : String × String) : RMState :=
  match serviceEndpoint with
  | none =>
    ⟨Attr.absent, Attr.val (some disc.1), Attr.val (some disc.2),
     Attr.val timeout, Attr.absent, Attr.absent, Attr.absent,
     Attr.val "/ws/v1/cluster"⟩
  | some uri =>
    ⟨Attr.absent, Attr.val uri.hostname,
     Attr.val (some (pyOrStr uri.port "8088")), Attr.val timeout,
     Attr.val username, Attr.val password,
     Attr.val (pyOrStr uri.scheme "https"),
     Attr.val (pyOrStr uri.path "/ws/v1/cluster")⟩

/-- The connection object returned by `BaseYarnAPI.http_conn`: host, port
and timeout as passed to `HTTPSConnection`, plus the wire scheme actually
used and whether server certificates are verified. -/
structure Conn where
  host : String
  port : String
  timeout : Nat
  scheme : String
  certVerified : Bool
deriving DecidableEq

/-- Embedding of the `BaseYarnAPI.http_conn` property (`base.py` lines
79-87): read `self.address` and `self.port` (raising `AttributeError` if
absent), raise `ConfigurationError` when either is `None`, then build
`HTTPSConnection(self.address, self.port, timeout=self.timeout,
context=ssl._create_unverified_context())` — always HTTPS, never
verifying certificates, with no use of any configured scheme. -/
def BaseYarnAPI.http_conn (s : RMState) : Except PyErr Conn :=
  match s.address with
  | Attr.absent => Except.error (PyErr.attributeError "address")
  | Attr.val ao =>
    match ao with
    | none => Except.error (PyErr.configurationError "API address is not set")
    | some a =>
      match s.port with
      | Attr.absent => Except.error (PyErr.attributeError "port")
      | Attr.val po =>
        match po with
        | none => Except.error (PyErr.configurationError "API port is not set")
        | some pt =>
          match s.timeout with
          | Attr.absent => Except.error (PyErr.attributeError "timeout")
          | Attr.val t => Except.ok ⟨a, pt, t, "https", false⟩

/-- Evaluation of the arguments of the logging call in
`BaseYarnAPI.request` (`base.py` line 39): `self.address` and `self.port`
are read before anything else in the method body after query encoding. -/
def logAccess (s : RMState) : Except PyErr Unit :=
  match s.address with
  | Attr.absent => Except.error (PyErr.attributeError "address")
  | Attr.val _ =>
    match s.port with
    | Attr.absent => Except.error (PyErr.attributeError "port")
    | Attr.val _ => Except.ok ()

/-- The `Authorization` header value computed by `BaseYarnAPI.request`:
`'Basic %s' % b64encode(bytes('%s:%s' % (username, password), 'utf-8'))`. -/
def authValue (u p : String) : String :=
  "Basic " ++ b64encode (utf8Encode (u ++ ":" ++ p))

/-- Embedding of the credential block of `BaseYarnAPI.request` (`base.py`
lines 42-60).  Python evaluates `self.username and self.password` with
short-circuit truthiness (`None` and `''` falsy), then either mutates the
caller-supplied dict in place via `headers.update(auth)` when it is
truthy (non-empty), or rebinds the local name to a fresh
`{'Authorization': ...}` dict.  Returns `(headers passed on to the HTTP
request, what the caller-supplied dict refers to after the call)`. -/
def applyAuth (s : RMState) (headers : Option HDict) :
    Except PyErr (Option HDict × Option HDict) :=
  match s.username with
  | Attr.absent => Except.error (PyErr.attributeError "username")
  | Attr.val uo =>
    match uo with
    | none => Except.ok (headers, headers)
    | some u =>
      if u == "" then Except.ok (headers, headers)
      else
        match s.password with
        | Attr.absent => Except.error (PyErr.attributeError "password")
        | Attr.val po =>
          match po with
          | none => Except.ok (headers, headers)
          | some p =>
            if p == "" then Except.ok (headers, headers)
            else
              match headers with
              | none => Except.ok (some [("Authorization", authValue u p)], none)
              | some d =>
                if d.isEmpty then
                  Except.ok (some [("Authorization", authValue u p)], some d)
                else
                  let d2 := pyDictInsert d "Authorization" (authValue u p)
                  Except.ok (some d2, some d2)

/-- A request as handed to the HTTP connection: method, full URL path
(including any query string), body, the headers passed, and the
connection it was issued on. -/
structure Issued where
  method : String
  url : String
  body : String
  headers : Option HDict
  conn : Conn
deriving DecidableEq

/-- Decidable equality for `Except`, needed to decide statements about
request traces on concrete inputs. -/
instance {ε α : Type} [DecidableEq ε] [DecidableEq α] : DecidableEq (Except ε α) :=
  fun x y =>
  match x, y with
  | Except.ok a, Except.ok b =>
    if h : a = b then isTrue (by rw [h])
    else isFalse (fun hc => h (Except.ok.inj hc))
  | Except.ok _, Except.error _ => isFalse (fun hc => Except.noConfusion hc)
  | Except.error _, Except.ok _ => isFalse (fun hc => Except.noConfusion hc)
  | Except.error a, Except.error b =>
    if h : a = b then isTrue (by rw [h])
    else isFalse (fun hc => h (Except.error.inj hc))

/-- Observable trace of one call to `BaseYarnAPI.request`: the HTTP
request issued (if any), the returned value or raised error, and what the
caller-supplied header dict refers to after the call. -/
structure ReqTrace (J ρ : Type) where
  issued : Option Issued
  outcome : Except PyErr (RespData J ρ)
  callerHeaders : Option HDict
deriving DecidableEq

/-- Embedding of `BaseYarnAPI.request` (`base.py` lines 32-73): encode the
query arguments and append them to the path after a `?` when non-empty;
evaluate the logging call's attribute reads; run the credential block;
obtain a fresh connection from `http_conn`; issue the request; then
return a `Response` wrapper for status 200 or 202 and raise
`APIError('Response finished with status: %s' % status)` otherwise.
`status` and `handle` are the status and body handle of the HTTP response
the server sends back; `jsonLoad` is the external `json.load`. -/
def BaseYarnAPI.request {J ρ : Type} (s : RMState)
    (jsonLoad : ρ → Except PyExc J) (apiPath action : String)
    (headers : Option HDict) (body : String)
    (queryArgs : List (String × String)) (status : Nat) (handle : ρ) :
    ReqTrace J ρ :=
  let params := urlencode queryArgs
  let path := if params == "" then apiPath else apiPath ++ "?" ++ params
  match logAccess s with
  | Except.error e => ⟨none, Except.error e, headers⟩
  | Except.ok _ =>
    match applyAuth s headers with
    | Except.error e => ⟨none, Except.error e, headers⟩
    | Except.ok (hdrs, callerAfter) =>
      match BaseYarnAPI.http_conn s with
      | Except.error e => ⟨none, Except.error e, callerAfter⟩
      | Except.ok conn =>
        let iss : Issued := ⟨action, path, body, hdrs, conn⟩
        if status == 200 || status == 202 then
          match Response.init jsonLoad handle with
          | Except.ok d => ⟨some iss, Except.ok d, callerAfter⟩
          | Except.error e => ⟨some iss, Except.error (PyErr.pyExc e), callerAfter⟩
        else
          ⟨some iss,
           Except.error (PyErr.apiError ("Response finished with status: " ++ toString status)),
           callerAfter⟩

/-- Embedding of `ResourceManager.cluster_information`
(`resource_manager.py` lines 43-52): `path = self.apiEndpoint + '/info'`,
then `self.request(path)` with default method, headers and body and no
query arguments. -/
def cluster_information {J ρ : Type} (s : RMState)
    (jsonLoad : ρ → Except PyExc J) (status : Nat) (handle : ρ) :
    ReqTrace J ρ :=
  match s.apiEndpoint with
  | Attr.absent => ⟨none, Except.error (PyErr.attributeError "apiEndpoint"), none⟩
  | Attr.val ep =>
    BaseYarnAPI.request s jsonLoad (ep ++ "/info") "GET" none "" [] status handle

/-- Embedding of `ResourceManager.cluster_node` (`resource_manager.py`
lines 226-235): `path = self.apiEndpoint + '/nodes/{nodeid}'.format(nodeid=node_id)`,
then `self.request(path)`. -/
def cluster_node {J ρ : Type} (s : RMState) (node_id : String)
    (jsonLoad : ρ → Except PyExc J) (status : Nat) (handle : ρ) :
    ReqTrace J ρ :=
  match s.apiEndpoint with
  | Attr.absent => ⟨none, Except.error (PyErr.attributeError "apiEndpoint"), none⟩
  | Attr.val ep =>
    BaseYarnAPI.request s jsonLoad (ep ++ "/nodes/" ++ node_id) "GET" none "" [] status handle

/-- Embedding of `ResourceManager.cluster_applications`
(`resource_manager.py` lines 80-133).  `yarnStates` and `finalStatuses`
are, modelled from the spec, the missing `constants.py` enumerations
`YarnApplicationState` and `FinalApplicationStatus` (static tables of
`(value, description)` pairs; the legal-value set is the set of first
components).  The method builds the path, validates `state` and then
`final_status` by membership, raising `IllegalArgumentError` with a
message naming the offending value before any request is made, and
otherwise filters the nine keyword arguments through
`construct_parameters` and delegates to `request`. -/
def cluster_applications {J ρ : Type}
    (yarnStates finalStatuses : List (String × String)) (s : RMState)
    (state final_status user queue limit started_time_begin started_time_end
      finished_time_begin finished_time_end : Option String)
    (jsonLoad : ρ → Except PyExc J) (status : Nat) (handle : ρ) :
    ReqTrace J ρ :=
  match s.apiEndpoint with
  | Attr.absent => ⟨none, Except.error (PyErr.attributeError "apiEndpoint"), none⟩
  | Attr.val ep =>
    let path := ep ++ "/apps"
    let legal_states := yarnStates.map Prod.fst
    if state.any (fun st => !(legal_states.contains st)) then
      ⟨none,
       Except.error (PyErr.illegalArgumentError
         ("Yarn Application State " ++ (state.getD "") ++ " is illegal")),
       none⟩
    else
      let legal_final_statuses := finalStatuses.map Prod.fst
      if final_status.any (fun fs => !(legal_final_statuses.contains fs)) then
        ⟨none,
         Except.error (PyErr.illegalArgumentError
           ("Final Application Status " ++ (final_status.getD "") ++ " is illegal")),
         none⟩
      else
        let loc_args : List (String × Option String) :=
          [("state", state), ("finalStatus", final_status), ("user", user),
           ("queue", queue), ("limit", limit),
           ("startedTimeBegin", started_time_begin),
           ("startedTimeEnd", started_time_end),
           ("finishedTimeBegin", finished_time_begin),
           ("finishedTimeEnd", finished_time_end)]
        let params := construct_parameters loc_args
        let qargs := params.filterMap (fun p => p.2.map (fun v => (p.1, v)))
        BaseYarnAPI.request s jsonLoad path "GET" none "" qargs status handle

/-- A service endpoint URI with a scheme but no hostname, port or path
(for example `https://`): its parse has no hostname component. -/
def uriNoHost : UriParts := ⟨some "https", none, none, none⟩

/-- The client built from `uriNoHost`: its configured `hostname` attribute
is set to Python `None` (unset host). -/
def rmNoHost : RMState :=
  ResourceManager.init (some uriNoHost) (some "alice") (some "secret") 30 ("", "")

/-- A fully configured base-level client with no credentials (username
and password set to Python `None`). -/
def plainState : RMState :=
  ⟨Attr.val (some "rm.example.com"), Attr.val (some "rm.example.com"),
   Attr.val (some "8088"), Attr.val 30, Attr.val none, Attr.val none,
   Attr.val "https", Attr.val "/ws/v1/cluster"⟩

/-- A base-level client whose configured scheme is `'http'`. -/
def httpSchemeState : RMState :=
  ⟨Attr.val (some "h"), Attr.val (some "h"), Attr.val (some "1"),
   Attr.val 5, Attr.val none, Attr.val none, Attr.val "http",
   Attr.val "/ws/v1/cluster"⟩

/-- A fully configured base-level client with HTTP Basic credentials. -/
def wellState : RMState :=
  ⟨Attr.val (some "rm.example.com"), Attr.val (some "rm.example.com"),
   Attr.val (some "8088"), Attr.val 30, Attr.val (some "alice"),
   Attr.val (some "secret"), Attr.val "https", Attr.val "/ws/v1/cluster"⟩

/-- The headers dict handed to the HTTP request when the credential block
fires, as a function of the caller-supplied dict: a fresh one-entry dict
when the caller supplied none (or an empty one), otherwise the caller's
dict updated in place. -/
def issuedAuthHeaders (headers : Option HDict) (v : String) : HDict :=
  match headers with
  | none => [("Authorization", v)]
  | some d =>
    if d.isEmpty then [("Authorization", v)]
    else pyDictInsert d "Authorization" v

/-- What the caller-supplied binding refers to after the credential
block: mutated in place exactly when it was a non-empty dict. -/
def callerHeadersAfterAuth (headers : Option HDict) (v : String) : Option HDict :=
  match headers with
  | none => none
  | some d =>
    if d.isEmpty then some d
    else some (pyDictInsert d "Authorization" v)

/-- Inserting under a key different from the head key commutes with the
head of the dict. -/
theorem pyDictInsert_cons_ne {α : Type} (a : String) (b : α)
    (tl : List (String × α)) (k : String) (v : α) (hak : (a == k) = false) :
    pyDictInsert ((a, b) :: tl) k v = (a, b) :: pyDictInsert tl k v := by
  simp only [pyDictInsert, List.any_cons, hak, Bool.false_or, List.map_cons]
  by_cases h : tl.any (fun p => p.1 == k)
  · simp [h, hak]
  · simp [h, hak]

/-- After a dict insert, looking up the inserted key yields the new value. -/
theorem dictLookup_pyDictInsert_self {α : Type} (d : List (String × α))
    (k : String) (v : α) :
    dictLookup (pyDictInsert d k v) k = some v := by
  induction d with
  | nil => simp [pyDictInsert, dictLookup]
  | cons hd tl ih =>
    obtain ⟨a, b⟩ := hd
    by_cases hak : (a == k) = true
    · have hk : a = k := by exact eq_of_beq hak
      subst hk
      simp only [pyDictInsert, List.any_cons, beq_self_eq_true, Bool.true_or,
        if_true, List.map_cons]
      simp [dictLookup]
    · have hak' : (a == k) = false := by simp at hak; simp [hak]
      rw [pyDictInsert_cons_ne a b tl k v hak']
      simp only [dictLookup, List.find?_cons, hak']
      exact ih

/-- Rewriting the entries whose key is `a` does not change a search for a
different key `k'`. -/
theorem find?_map_key_rewrite {α : Type} (a k' : String) (v : α)
    (hkk' : (a == k') = false) (tl : List (String × α)) :
    List.find? (fun p => p.1 == k')
        (tl.map (fun p => if p.1 == a then (a, v) else p))
      = List.find? (fun p => p.1 == k') tl := by
  induction tl with
  | nil => rfl
  | cons hd tl ih =>
    obtain ⟨a2, b2⟩ := hd
    by_cases h2 : (a2 == a) = true
    · have ha2 : a2 = a := eq_of_beq h2
      subst ha2
      have h4 : (a2 == k') = false := hkk'
      simp only [List.map_cons, h2, if_true]
      rw [List.find?_cons_of_neg _ (by simp [hkk']),
        List.find?_cons_of_neg _ (by simp [h4])]
      exact ih
    · have h2' : (a2 == a) = false := by
        cases h5 : (a2 == a) with
        | true => exact absurd h5 h2
        | false => rfl
      simp only [List.map_cons, h2', Bool.false_eq_true, if_false]
      cases h3 : (a2 == k') with
      | true =>
        rw [List.find?_cons_of_pos _ (by simp [h3]),
          List.find?_cons_of_pos _ (by simp [h3])]
      | false =>
        rw [List.find?_cons_of_neg _ (by simp [h3]),
          List.find?_cons_of_neg _ (by simp [h3])]
        exact ih

/-- Appending an entry whose key does not match leaves a search
unchanged. -/
theorem find?_append_single_miss {α : Type} (k' : String) (kv : String × α)
    (hmiss : (kv.1 == k') = false) (d : List (String × α)) :
    List.find? (fun p => p.1 == k') (d ++ [kv])
      = List.find? (fun p => p.1 == k') d := by
  induction d with
  | nil => simp [List.find?, hmiss]
  | cons hd tl ih =>
    simp only [List.cons_append]
    cases h3 : (hd.1 == k') with
    | true =>
      rw [List.find?_cons_of_pos _ (by simp [h3]),
        List.find?_cons_of_pos _ (by simp [h3])]
    | false =>
      rw [List.find?_cons_of_neg _ (by simp [h3]),
        List.find?_cons_of_neg _ (by simp [h3])]
      exact ih

/-- After a dict insert, looking up any other key is unchanged. -/
theorem dictLookup_pyDictInsert_ne {α : Type} (d : List (String × α))
    (k k' : String) (v : α) (hne : k' ≠ k) :
    dictLookup (pyDictInsert d k v) k' = dictLookup d k' := by
  have hkk' : (k == k') = false := by
    simp only [beq_eq_false_iff_ne]; exact fun h => hne h.symm
  by_cases hany : d.any (fun p => p.1 == k) = true
  · simp only [pyDictInsert, hany, if_true, dictLookup]
    rw [find?_map_key_rewrite k k' v hkk' d]
  · have hany' : d.any (fun p => p.1 == k) = false := by
      cases h5 : d.any (fun p => p.1 == k) with
      | true => exact absurd h5 hany
      | false => rfl
    simp only [pyDictInsert, hany', Bool.false_eq_true, if_false, dictLookup]
    rw [find?_append_single_miss k' (k, v) hkk' d]

/-- Folding pairs into a dict whose existing keys are disjoint from the
pairs' pairwise-distinct keys just appends the pairs. -/
theorem pyDictFold_nodup {α : Type} (l : List (String × α)) :
    ∀ acc : List (String × α),
      (∀ p ∈ l, ∀ q ∈ acc, (q.1 == p.1) = false) →
      (l.map Prod.fst).Nodup →
      l.foldl (fun d p => pyDictInsert d p.1 p.2) acc = acc ++ l := by
  induction l with
  | nil => intro acc _ _; simp
  | cons hd tl ih =>
    intro acc hdisj hnd
    have hnotin : acc.any (fun p => p.1 == hd.1) = false := by
      rw [List.any_eq_false]
      intro q hq
      have := hdisj hd (List.mem_cons_self hd tl) q hq
      simp [this]
    have hins : pyDictInsert acc hd.1 hd.2 = acc ++ [hd] := by
      simp [pyDictInsert, hnotin]
    rw [List.foldl_cons, hins]
    have hnd' : (tl.map Prod.fst).Nodup := by
      simp only [List.map_cons, List.nodup_cons] at hnd
      exact hnd.2
    have hhd : hd.1 ∉ tl.map Prod.fst := by
      simp only [List.map_cons, List.nodup_cons] at hnd
      exact hnd.1
    have hdisj' : ∀ p ∈ tl, ∀ q ∈ acc ++ [hd], (q.1 == p.1) = false := by
      intro p hp q hq
      rcases List.mem_append.1 hq with hqa | hqh
      · exact hdisj p (List.mem_cons_of_mem hd hp) q hqa
      · have : q = hd := by simpa using hqh
        subst this
        have hne : q.1 ≠ p.1 := by
          intro he
          exact hhd (he ▸ List.mem_map_of_mem Prod.fst hp)
        simp [hne]
    rw [ih (acc ++ [hd]) hdisj' hnd']
    simp

/-- Building a Python dict from pairs with pairwise-distinct keys keeps
exactly those pairs, in order. -/
theorem pyDictOfPairs_nodup {α : Type} (l : List (String × α))
    (hnd : (l.map Prod.fst).Nodup) : pyDictOfPairs l = l := by
  have := pyDictFold_nodup l [] (by intro p _ q hq; cases hq) hnd
  simpa [pyDictOfPairs] using this

/-- C3 counterexample: for the ordered sequence
`[('a', 1), ('a', 2)]` (two non-null values under the same name), the
mapping `construct_parameters` returns does not contain the pair
`('a', 1)` even though its value is not null — building a Python dict
keeps only the last pair for each name — so the claim's "contains exactly
the pairs whose value is not null" fails on sequences with duplicate
names. -/
theorem construct_parameters_duplicate_counterexample :
    ("a", (some 1 : Option Nat)) ∈
        [("a", (some 1 : Option Nat)), ("a", some 2)] ∧
    ("a", (some 1 : Option Nat)) ∉
        construct_parameters [("a", (some 1 : Option Nat)), ("a", some 2)] ∧
    dictLookup (construct_parameters
        [("a", (some 1 : Option Nat)), ("a", some 2)]) "a" = some (some 2) := by
  refine ⟨by decide, ?_, ?_⟩
  · have h : construct_parameters [("a", (some 1 : Option Nat)), ("a", some 2)]
        = [("a", some 2)] := by rfl
    rw [h]; decide
  · rfl

/-- C3 (amended): for every ordered sequence of (name, value) pairs whose
names are pairwise distinct, `construct_parameters` returns a mapping
containing exactly the pairs whose value is not null, each with its name
and value unchanged (and in order), and containing no pair whose value is
null; it is a pure function (a Lean function of its argument alone) and
performs no validation of value types (it is defined for an arbitrary
value type `α`). -/
theorem construct_parameters_exact {α : Type}
    (arguments : List (String × Option α))
    (hnd : (arguments.map Prod.fst).Nodup) :
    construct_parameters arguments
        = arguments.filter (fun p => p.2.isSome) ∧
    ∀ p ∈ construct_parameters arguments, p.2 ≠ none := by
  have hsub : ((arguments.filter (fun p => p.2.isSome)).map Prod.fst).Nodup := by
    refine List.Nodup.sublist ?_ hnd
    exact List.Sublist.map Prod.fst (List.filter_sublist arguments)
  have heq : construct_parameters arguments
      = arguments.filter (fun p => p.2.isSome) := by
    unfold construct_parameters
    exact pyDictOfPairs_nodup _ hsub
  refine ⟨heq, ?_⟩
  intro p hp
  rw [heq] at hp
  have := (List.mem_filter.1 hp).2
  cases h2 : p.2 with
  | none => rw [h2] at this; simp at this
  | some v => simp [h2]

/-- C3 witness: `construct_parameters` on `[('a', 1), ('b', None)]`
keeps exactly the non-null pair. -/
theorem construct_parameters_exact_witness :
    construct_parameters [("a", (some 1 : Option Nat)), ("b", none)]
      = [("a", some 1)] := by
  have h := construct_parameters_exact
    [("a", (some 1 : Option Nat)), ("b", none)] (by decide)
  exact h.1.trans (by decide)

/-- C2: for every response handle, the `Response` wrapper's data equals
the parsed JSON value when `json.load` succeeds, and equals the original
unparsed response handle when `json.load` raises `ValueError` — which is
what it raises for an empty, malformed or non-JSON body (CPython's
`json.JSONDecodeError` subclasses `ValueError`) — and in that case
construction returns normally, raising no exception. -/
theorem response_wrapper_soft_fallback {J ρ : Type}
    (jsonLoad : ρ → Except PyExc J) (r : ρ) :
    (∀ j, jsonLoad r = Except.ok j →
        Response.init jsonLoad r = Except.ok (RespData.decoded j)) ∧
    (∀ m, jsonLoad r = Except.error (PyExc.valueError m) →
        Response.init jsonLoad r = Except.ok (RespData.raw r)) := by
  constructor
  · intro j hj
    unfold Response.init
    rw [hj]
  · intro m hm
    unfold Response.init
    rw [hm]

/-- C2 witness: a loader that always raises `ValueError` yields the raw
handle, with no exception. -/
theorem response_wrapper_soft_fallback_witness :
    Response.init (fun _ => Except.error (PyExc.valueError "No JSON object could be decoded"))
        (0 : Nat)
      = Except.ok (RespData.raw (0 : Nat) : RespData Nat Nat) :=
  (response_wrapper_soft_fallback
      (fun _ => Except.error (PyExc.valueError "No JSON object could be decoded"))
      (0 : Nat)).2
    "No JSON object could be decoded" rfl

/-- C9: constructor postconditions per branch.  With an explicit
`serviceEndpoint`, a missing scheme defaults to `'https'`, a missing port
to `'8088'`, a missing path to `'/ws/v1/cluster'`, the Python default of
`timeout` is `30`, and `username`/`password`/`scheme` are assigned (to
the given arguments resp. the defaulted scheme).  With `serviceEndpoint`
absent (discovery), only `hostname`, `port`, `apiEndpoint` and `timeout`
are assigned, and `username`, `password` and `scheme` are never
assigned.  (`Uri` parsing and discovery are modelled from the spec.) -/
theorem rm_init_postconditions (uri : UriParts) (u p : Option String)
    (t : Nat) (disc : String × String) :
    ((ResourceManager.init (some uri) u p t disc).timeout = Attr.val t ∧
     (ResourceManager.init (some uri) u p t disc).username = Attr.val u ∧
     (ResourceManager.init (some uri) u p t disc).password = Attr.val p ∧
     (ResourceManager.init (some uri) u p t disc).scheme
        = Attr.val (pyOrStr uri.scheme "https") ∧
     (ResourceManager.init (some uri) u p t disc).hostname
        = Attr.val uri.hostname ∧
     (ResourceManager.init (some uri) u p t disc).port
        = Attr.val (some (pyOrStr uri.port "8088")) ∧
     (ResourceManager.init (some uri) u p t disc).apiEndpoint
        = Attr.val (pyOrStr uri.path "/ws/v1/cluster") ∧
     (ResourceManager.init (some uri) u p defaultTimeout disc).timeout
        = Attr.val 30 ∧
     (uri.scheme = none →
        (ResourceManager.init (some uri) u p t disc).scheme
          = Attr.val "https") ∧
     (uri.port = none →
        (ResourceManager.init (some uri) u p t disc).port
          = Attr.val (some "8088")) ∧
     (uri.path = none →
        (ResourceManager.init (some uri) u p t disc).apiEndpoint
          = Attr.val "/ws/v1/cluster")) ∧
    ((ResourceManager.init none u p defaultTimeout disc).timeout
        = Attr.val 30 ∧
     (ResourceManager.init none u p t disc).hostname
        = Attr.val (some disc.1) ∧
     (ResourceManager.init none u p t disc).port = Attr.val (some disc.2) ∧
     (ResourceManager.init none u p t disc).apiEndpoint
        = Attr.val "/ws/v1/cluster" ∧
     (ResourceManager.init none u p t disc).timeout = Attr.val t ∧
     (ResourceManager.init none u p t disc).username = Attr.absent ∧
     (ResourceManager.init none u p t disc).password = Attr.absent ∧
     (ResourceManager.init none u p t disc).scheme = Attr.absent ∧
     (ResourceManager.init none u p t disc).address = Attr.absent) := by
  refine ⟨⟨rfl, rfl, rfl, rfl, rfl, rfl, rfl, rfl, ?_, ?_, ?_⟩,
    rfl, rfl, rfl, rfl, rfl, rfl, rfl, rfl, rfl⟩
  · intro h; simp [ResourceManager.init, pyOrStr, h]
  · intro h; simp [ResourceManager.init, pyOrStr, h]
  · intro h; simp [ResourceManager.init, pyOrStr, h]

/-- C9 witness: concrete constructor calls on both branches. -/
theorem rm_init_postconditions_witness :
    (ResourceManager.init (some ⟨none, some "rm.example.com", none, none⟩)
        (some "u") (some "pw") 7 ("h", "p")).scheme = Attr.val "https" ∧
    (ResourceManager.init none (some "u") (some "pw") 7 ("h", "p")).username
        = Attr.absent := by
  obtain ⟨⟨_, _, _, _, _, _, _, _, hs, _, _⟩, _, _, _, _, _, hu, _, _, _⟩ :=
    rm_init_postconditions ⟨none, some "rm.example.com", none, none⟩
      (some "u") (some "pw") 7 ("h", "p")
  exact ⟨hs rfl, hu⟩

/-- C4: evaluating the code at the failing input.  For a client whose
configured hostname is unset, a call to `request` raises
`AttributeError('address')` — not a `ConfigurationError` — and issues no
HTTP request: `base.py` reads `self.address` (in the logging call and in
`http_conn`) while `ResourceManager.__init__` stores the host in
`self.hostname` and never assigns `self.address`, so the
`ConfigurationError` checks in `http_conn` are unreachable through this
client. -/
theorem request_unset_host_raises_attribute_error :
    rmNoHost.hostname = Attr.val none ∧
    (BaseYarnAPI.request rmNoHost
        (fun h => Except.ok h : Nat → Except PyExc Nat)
        "/ws/v1/cluster/info" "GET" none "" [] 200 0).outcome
      = Except.error (PyErr.attributeError "address") ∧
    (BaseYarnAPI.request rmNoHost
        (fun h => Except.ok h : Nat → Except PyExc Nat)
        "/ws/v1/cluster/info" "GET" none "" [] 200 0).issued = none := by
  refine ⟨rfl, rfl, rfl⟩

/-- Every HTTP request actually issued by `request` uses the given method,
the path extended by the encoded query string exactly when it is
non-empty, and the connection obtained from `http_conn`. -/
theorem request_issued_shape {J ρ : Type} (s : RMState)
    (jsonLoad : ρ → Except PyExc J) (apiPath action : String)
    (headers : Option HDict) (body : String)
    (queryArgs : List (String × String)) (status : Nat) (handle : ρ)
    (iss : Issued)
    (hiss : (BaseYarnAPI.request s jsonLoad apiPath action headers body
        queryArgs status handle).issued = some iss) :
    iss.method = action ∧
    iss.url = (if urlencode queryArgs == "" then apiPath
               else apiPath ++ "?" ++ urlencode queryArgs) ∧
    iss.body = body ∧
    BaseYarnAPI.http_conn s = Except.ok iss.conn := by
  simp only [BaseYarnAPI.request] at hiss
  split at hiss
  · exact Option.noConfusion hiss
  · split at hiss
    · exact Option.noConfusion hiss
    · split at hiss
      · exact Option.noConfusion hiss
      · rename_i conn hconn
        split at hiss
        · split at hiss <;>
          · have h := Option.some.inj hiss
            subst h
            exact ⟨rfl, rfl, rfl, hconn⟩
        · have h := Option.some.inj hiss
          subst h
          exact ⟨rfl, rfl, rfl, hconn⟩

/-- C7: for every client state whose `apiEndpoint` is set, every HTTP
request that `cluster_information` issues is a GET for exactly
`apiEndpoint + '/info'` with no query string appended, and every HTTP
request that `cluster_node(node_id)` issues is a GET for exactly
`apiEndpoint + '/nodes/' + node_id`, the identifier inserted verbatim by
string concatenation with no escaping. -/
theorem facade_request_paths {J ρ : Type} (s : RMState) (ep : String)
    (he : s.apiEndpoint = Attr.val ep) (node_id : String)
    (jsonLoad : ρ → Except PyExc J) (status : Nat) (handle : ρ) :
    (∀ iss, (cluster_information s jsonLoad status handle).issued = some iss →
      iss.method = "GET" ∧ iss.url = ep ++ "/info") ∧
    (∀ iss, (cluster_node s node_id jsonLoad status handle).issued = some iss →
      iss.method = "GET" ∧ iss.url = ep ++ "/nodes/" ++ node_id) := by
  constructor
  · intro iss hiss
    unfold cluster_information at hiss
    rw [he] at hiss
    have h := request_issued_shape s jsonLoad (ep ++ "/info") "GET" none ""
      [] status handle iss hiss
    exact ⟨h.1, h.2.1⟩
  · intro iss hiss
    unfold cluster_node at hiss
    rw [he] at hiss
    have h := request_issued_shape s jsonLoad (ep ++ "/nodes/" ++ node_id)
      "GET" none "" [] status handle iss hiss
    exact ⟨h.1, h.2.1⟩

/-- C7 witness: on a concrete client, `cluster_information` issues a GET
for `/ws/v1/cluster/info`. -/
theorem facade_request_paths_witness :
    (⟨"GET", "/ws/v1/cluster/info", "", none,
        ⟨"rm.example.com", "8088", 30, "https", false⟩⟩ : Issued).method
      = "GET" ∧
    (⟨"GET", "/ws/v1/cluster/info", "", none,
        ⟨"rm.example.com", "8088", 30, "https", false⟩⟩ : Issued).url
      = "/ws/v1/cluster" ++ "/info" :=
  (facade_request_paths plainState "/ws/v1/cluster" rfl "host1:45454"
      (fun h => Except.ok h : Nat → Except PyExc Nat) 200 0).1 _ rfl

/-- C8 counterexample: for a client whose connection configuration has
scheme `'http'`, the connection `http_conn` opens is nevertheless an
HTTPS connection with certificate verification disabled — `base.py`
hardcodes `HTTPSConnection(..., context=ssl._create_unverified_context())`
and never consults the configured scheme or any TLS mode — refuting the
claim that the configured TLS mode/scheme is used. -/
theorem http_conn_ignores_scheme_counterexample :
    httpSchemeState.scheme = Attr.val "http" ∧
    BaseYarnAPI.http_conn httpSchemeState
      = Except.ok ⟨"h", "1", 5, "https", false⟩ ∧
    (⟨"h", "1", 5, "https", false⟩ : Conn).scheme ≠ "http" ∧
    (⟨"h", "1", 5, "https", false⟩ : Conn).certVerified ≠ true := by
  refine ⟨rfl, rfl, by decide, by decide⟩

/-- C8 (amended): for every call to `request`, the connection is
constructed afresh from the configuration (so none is reused across
calls): it goes to the host held in the `address` attribute and the
configured port, uses the configured timeout, and is always HTTPS with
certificate verification disabled, regardless of any configured scheme
or TLS mode. -/
theorem http_conn_fresh_https_unverified (s : RMState) (a pt : String)
    (t : Nat) (ha : s.address = Attr.val (some a))
    (hp : s.port = Attr.val (some pt)) (ht : s.timeout = Attr.val t) :
    BaseYarnAPI.http_conn s = Except.ok ⟨a, pt, t, "https", false⟩ ∧
    ∀ (J ρ : Type) (jsonLoad : ρ → Except PyExc J)
      (apiPath action body : String) (headers : Option HDict)
      (queryArgs : List (String × String)) (status : Nat) (handle : ρ)
      (iss : Issued),
      (BaseYarnAPI.request s jsonLoad apiPath action headers body queryArgs
          status handle).issued = some iss →
      iss.conn = ⟨a, pt, t, "https", false⟩ := by
  have hconn : BaseYarnAPI.http_conn s = Except.ok ⟨a, pt, t, "https", false⟩ := by
    simp [BaseYarnAPI.http_conn, ha, hp, ht]
  refine ⟨hconn, ?_⟩
  intro J ρ jsonLoad apiPath action body headers queryArgs status handle iss hiss
  have h := (request_issued_shape s jsonLoad apiPath action headers body
    queryArgs status handle iss hiss).2.2.2
  rw [hconn] at h
  exact (Except.ok.inj h).symm

/-- C8 witness: on a concrete client, `http_conn` yields the HTTPS
unverified connection to the configured host, port and timeout. -/
theorem http_conn_fresh_https_unverified_witness :
    BaseYarnAPI.http_conn plainState
      = Except.ok ⟨"rm.example.com", "8088", 30, "https", false⟩ :=
  (http_conn_fresh_https_unverified plainState "rm.example.com" "8088" 30
      rfl rfl rfl).1

/-- The credential block never raises when the `username` and `password`
attributes are present. -/
theorem applyAuth_ok (s : RMState) (uo po : Option String)
    (hu : s.username = Attr.val uo) (hp : s.password = Attr.val po)
    (headers : Option HDict) :
    ∃ pr, applyAuth s headers = Except.ok pr := by
  cases uo with
  | none => exact ⟨(headers, headers), by simp [applyAuth, hu]⟩
  | some u =>
    by_cases hub : (u == "") = true
    · exact ⟨(headers, headers), by simp [applyAuth, hu, hub]⟩
    · have hub' : (u == "") = false := by
        cases h : (u == "") with
        | true => exact absurd h hub
        | false => rfl
      cases po with
      | none => exact ⟨(headers, headers), by simp [applyAuth, hu, hp, hub']⟩
      | some p =>
        by_cases hpb : (p == "") = true
        · exact ⟨(headers, headers), by simp [applyAuth, hu, hp, hub', hpb]⟩
        · have hpb' : (p == "") = false := by
            cases h : (p == "") with
            | true => exact absurd h hpb
            | false => rfl
          cases headers with
          | none =>
            exact ⟨(some [("Authorization", authValue u p)], none),
              by simp [applyAuth, hu, hp, hub', hpb']⟩
          | some d =>
            cases d with
            | nil =>
              exact ⟨(some [("Authorization", authValue u p)], some []),
                by simp [applyAuth, hu, hp, hub', hpb', List.isEmpty]⟩
            | cons x xs =>
              exact ⟨(some (pyDictInsert (x :: xs) "Authorization" (authValue u p)),
                  some (pyDictInsert (x :: xs) "Authorization" (authValue u p))),
                by simp [applyAuth, hu, hp, hub', hpb', List.isEmpty]⟩

/-- C1: for every call to `request` on a client whose connection
attributes are present and whose HTTP exchange yields a response, a
status of 200 or 202 makes `request` return the `Response` wrapper built
over the response body (the wrapper's own value, errors embedded
verbatim), and any other status makes it raise
`APIError('Response finished with status: <code>')` and return nothing
else. -/
theorem request_status_classification {J ρ : Type} (s : RMState)
    (a pt : String) (t : Nat) (uo pwo : Option String)
    (ha : s.address = Attr.val (some a)) (hprt : s.port = Attr.val (some pt))
    (ht : s.timeout = Attr.val t) (hu : s.username = Attr.val uo)
    (hpw : s.password = Attr.val pwo)
    (jsonLoad : ρ → Except PyExc J) (apiPath action : String)
    (headers : Option HDict) (body : String)
    (queryArgs : List (String × String)) (status : Nat) (handle : ρ) :
    ((status = 200 ∨ status = 202) →
      (BaseYarnAPI.request s jsonLoad apiPath action headers body queryArgs
          status handle).outcome
        = (Response.init jsonLoad handle).mapError PyErr.pyExc) ∧
    (status ≠ 200 → status ≠ 202 →
      (BaseYarnAPI.request s jsonLoad apiPath action headers body queryArgs
          status handle).outcome
        = Except.error (PyErr.apiError
            ("Response finished with status: " ++ toString status))) := by
  obtain ⟨⟨hdrs, callerAfter⟩, hauth⟩ := applyAuth_ok s uo pwo hu hpw headers
  have hlog : logAccess s = Except.ok () := by simp [logAccess, ha, hprt]
  have hconn : BaseYarnAPI.http_conn s = Except.ok ⟨a, pt, t, "https", false⟩ := by
    simp [BaseYarnAPI.http_conn, ha, hprt, ht]
  constructor
  · intro hst
    have hstb : (status == 200 || status == 202) = true := by
      rcases hst with h | h <;> simp [h]
    simp only [BaseYarnAPI.request, hlog, hauth, hconn, hstb, if_true]
    cases hri : Response.init jsonLoad handle with
    | ok d => simp [hri, Except.mapError]
    | error e => simp [hri, Except.mapError]
  · intro h1 h2
    have hstb : (status == 200 || status == 202) = false := by
      simp [h1, h2]
    simp [BaseYarnAPI.request, hlog, hauth, hconn, hstb]

/-- C1 witness: a 404 response raises the `APIError` with the exact
message. -/
theorem request_status_classification_witness :
    (BaseYarnAPI.request wellState
        (fun h => Except.ok h : Nat → Except PyExc Nat)
        "/ws/v1/cluster/info" "GET" none "" [] 404 0).outcome
      = Except.error (PyErr.apiError
          ("Response finished with status: " ++ toString 404)) :=
  (request_status_classification wellState "rm.example.com" "8088" 30
      (some "alice") (some "secret") rfl rfl rfl rfl rfl
      (fun h => Except.ok h) "/ws/v1/cluster/info" "GET" none "" [] 404 0).2
    (by decide) (by decide)

/-- C5: when both `username` and `password` are configured (non-`None`
and non-empty), the headers passed to the HTTP request contain an
`Authorization` header whose value is `'Basic '` followed by the base64
encoding of `'username:password'`, all other caller-supplied headers are
preserved, and the header mapping is created when the caller supplied
none; when either credential is unset (`None` or empty), the headers are
passed through exactly as supplied. -/
theorem request_basic_auth_headers (s : RMState) (uo po : Option String)
    (hu : s.username = Attr.val uo) (hp : s.password = Attr.val po)
    (headers : Option HDict) :
    (∀ u p, uo = some u → po = some p → u ≠ "" → p ≠ "" →
      applyAuth s headers
          = Except.ok (some (issuedAuthHeaders headers (authValue u p)),
              callerHeadersAfterAuth headers (authValue u p)) ∧
      dictLookup (issuedAuthHeaders headers (authValue u p)) "Authorization"
          = some (authValue u p) ∧
      ∀ k, k ≠ "Authorization" →
        dictLookup (issuedAuthHeaders headers (authValue u p)) k
          = optLookup headers k) ∧
    ((pyTruthyStr uo && pyTruthyStr po) = false →
      applyAuth s headers = Except.ok (headers, headers)) := by
  constructor
  · intro u p huo hpo hue hpe
    subst huo
    subst hpo
    have hub : (u == "") = false := beq_eq_false_iff_ne.2 hue
    have hpb : (p == "") = false := beq_eq_false_iff_ne.2 hpe
    refine ⟨?_, ?_, ?_⟩
    · cases headers with
      | none =>
        simp [applyAuth, hu, hp, hub, hpb, issuedAuthHeaders,
          callerHeadersAfterAuth]
      | some d =>
        cases d with
        | nil =>
          simp [applyAuth, hu, hp, hub, hpb, issuedAuthHeaders,
            callerHeadersAfterAuth, List.isEmpty]
        | cons x xs =>
          simp [applyAuth, hu, hp, hub, hpb, issuedAuthHeaders,
            callerHeadersAfterAuth, List.isEmpty]
    · cases headers with
      | none => simp [issuedAuthHeaders, dictLookup, List.find?]
      | some d =>
        cases d with
        | nil => simp [issuedAuthHeaders, dictLookup, List.find?, List.isEmpty]
        | cons x xs =>
          have : issuedAuthHeaders (some (x :: xs)) (authValue u p)
              = pyDictInsert (x :: xs) "Authorization" (authValue u p) := by
            simp [issuedAuthHeaders, List.isEmpty]
          rw [this]
          exact dictLookup_pyDictInsert_self (x :: xs) "Authorization"
            (authValue u p)
    · intro k hk
      have hak : ("Authorization" == k) = false :=
        beq_eq_false_iff_ne.2 (fun h => hk h.symm)
      cases headers with
      | none => simp [issuedAuthHeaders, optLookup, dictLookup, List.find?, hak]
      | some d =>
        cases d with
        | nil =>
          simp [issuedAuthHeaders, optLookup, dictLookup, List.find?,
            List.isEmpty, hak]
        | cons x xs =>
          have : issuedAuthHeaders (some (x :: xs)) (authValue u p)
              = pyDictInsert (x :: xs) "Authorization" (authValue u p) := by
            simp [issuedAuthHeaders, List.isEmpty]
          rw [this]
          exact dictLookup_pyDictInsert_ne (x :: xs) "Authorization" k
            (authValue u p) hk
  · intro htr
    cases uo with
    | none => simp [applyAuth, hu]
    | some u =>
      by_cases hub : (u == "") = true
      · simp [applyAuth, hu, hub]
      · have hub' : (u == "") = false := by
          cases h : (u == "") with
          | true => exact absurd h hub
          | false => rfl
        simp only [pyTruthyStr, hub', Bool.not_false, Bool.true_and] at htr
        cases po with
        | none => simp [applyAuth, hu, hp, hub']
        | some p =>
          simp only [pyTruthyStr, Bool.not_eq_false'] at htr
          have hpb : (p == "") = true := htr
          simp [applyAuth, hu, hp, hub', hpb]

/-- C5 witness: with credentials `alice`/`secret` and one caller header,
the issued headers carry the Basic value and the caller dict is updated
in place. -/
theorem request_basic_auth_headers_witness :
    applyAuth wellState (some [("X-Custom", "1")])
        = Except.ok
            (some (issuedAuthHeaders (some [("X-Custom", "1")])
                (authValue "alice" "secret")),
             callerHeadersAfterAuth (some [("X-Custom", "1")])
                (authValue "alice" "secret")) ∧
    dictLookup (issuedAuthHeaders (some [("X-Custom", "1")])
        (authValue "alice" "secret")) "Authorization"
      = some (authValue "alice" "secret") := by
  have h := (request_basic_auth_headers wellState (some "alice") (some "secret")
      rfl rfl (some [("X-Custom", "1")])).1 "alice" "secret" rfl rfl
      (by decide) (by decide)
  exact ⟨h.1, h.2.1⟩

/-- C10: when both credentials are configured and the caller passes a
non-empty headers dict, the caller's own dict is mutated in place by the
credential block — after `request` returns or raises (any response
status, including error paths), the caller's dict contains the added
`Authorization` key, overwriting any `Authorization` entry the caller
had set — and the dict passed to the HTTP request is that same mutated
dict, not a copy. -/
theorem request_mutates_caller_headers {J ρ : Type} (s : RMState)
    (ao po : Option String) (u p : String)
    (ha : s.address = Attr.val ao) (hprt : s.port = Attr.val po)
    (hu : s.username = Attr.val (some u)) (hpw : s.password = Attr.val (some p))
    (hue : u ≠ "") (hpe : p ≠ "") (d : HDict) (hd : d ≠ [])
    (jsonLoad : ρ → Except PyExc J) (apiPath action body : String)
    (queryArgs : List (String × String)) (status : Nat) (handle : ρ) :
    (BaseYarnAPI.request s jsonLoad apiPath action (some d) body queryArgs
        status handle).callerHeaders
      = some (pyDictInsert d "Authorization" (authValue u p)) ∧
    dictLookup (pyDictInsert d "Authorization" (authValue u p)) "Authorization"
      = some (authValue u p) ∧
    ∀ iss, (BaseYarnAPI.request s jsonLoad apiPath action (some d) body
        queryArgs status handle).issued = some iss →
      iss.headers = some (pyDictInsert d "Authorization" (authValue u p)) := by
  have hub : (u == "") = false := beq_eq_false_iff_ne.2 hue
  have hpb : (p == "") = false := beq_eq_false_iff_ne.2 hpe
  have hde : d.isEmpty = false := by
    cases d with
    | nil => exact absurd rfl hd
    | cons x xs => rfl
  have hauth : applyAuth s (some d)
      = Except.ok (some (pyDictInsert d "Authorization" (authValue u p)),
          some (pyDictInsert d "Authorization" (authValue u p))) := by
    simp [applyAuth, hu, hpw, hub, hpb, hde]
  have hlog : logAccess s = Except.ok () := by simp [logAccess, ha, hprt]
  refine ⟨?_, dictLookup_pyDictInsert_self d "Authorization" (authValue u p), ?_⟩
  · cases hconn : BaseYarnAPI.http_conn s with
    | error e => simp [BaseYarnAPI.request, hlog, hauth, hconn]
    | ok conn =>
      simp only [BaseYarnAPI.request, hlog, hauth, hconn]
      split
      · split <;> rfl
      · rfl
  · intro iss hiss
    cases hconn : BaseYarnAPI.http_conn s with
    | error e =>
      simp only [BaseYarnAPI.request, hlog, hauth, hconn] at hiss
      exact Option.noConfusion hiss
    | ok conn =>
      simp only [BaseYarnAPI.request, hlog, hauth, hconn] at hiss
      split at hiss
      · split at hiss <;>
        · have h := Option.some.inj hiss
          subst h
          rfl
      · have h := Option.some.inj hiss
        subst h
        rfl

/-- C10 witness: with credentials set and the caller supplying a dict
that already has an `Authorization` entry, the caller's dict after the
call holds the new Basic value (even though the response status 500
makes the call raise). -/
theorem request_mutates_caller_headers_witness :
    (BaseYarnAPI.request wellState
        (fun h => Except.ok h : Nat → Except PyExc Nat)
        "/ws/v1/cluster/info" "GET" (some [("Authorization", "old")]) ""
        [] 500 0).callerHeaders
      = some (pyDictInsert [("Authorization", "old")] "Authorization"
          (authValue "alice" "secret")) ∧
    dictLookup (pyDictInsert [("Authorization", "old")] "Authorization"
        (authValue "alice" "secret")) "Authorization"
      = some (authValue "alice" "secret") := by
  have h := request_mutates_caller_headers wellState
    (some "rm.example.com") (some "8088") "alice" "secret" rfl rfl rfl rfl
    (by decide) (by decide) [("Authorization", "old")] (by decide)
    (fun h => Except.ok h) "/ws/v1/cluster/info" "GET" "" [] 500 0
  exact ⟨h.1, h.2.1⟩

/-- C6: for every call to `cluster_applications` with a `state` argument
that is non-`None` and not in the legal application-state set, the
facade raises `IllegalArgumentError` with a message naming the offending
value and issues no network request (`request` is never reached, so the
trace records no issued request and the purely-functional client state
is untouched); likewise for a `final_status` outside its legal set when
`state` passes.  The legal-value tables are modelled from the spec. -/
theorem cluster_applications_validation {J ρ : Type}
    (yarnStates finalStatuses : List (String × String)) (s : RMState)
    (ep : String) (he : s.apiEndpoint = Attr.val ep)
    (state final_status user queue limit stb ste ftb fte : Option String)
    (jsonLoad : ρ → Except PyExc J) (status : Nat) (handle : ρ) :
    (∀ st, state = some st → (yarnStates.map Prod.fst).contains st = false →
      cluster_applications yarnStates finalStatuses s state final_status user
          queue limit stb ste ftb fte jsonLoad status handle
        = ⟨none, Except.error (PyErr.illegalArgumentError
            ("Yarn Application State " ++ st ++ " is illegal")), none⟩) ∧
    (∀ fs, final_status = some fs →
      state.all (fun st => (yarnStates.map Prod.fst).contains st) = true →
      (finalStatuses.map Prod.fst).contains fs = false →
      cluster_applications yarnStates finalStatuses s state final_status user
          queue limit stb ste ftb fte jsonLoad status handle
        = ⟨none, Except.error (PyErr.illegalArgumentError
            ("Final Application Status " ++ fs ++ " is illegal")), none⟩) := by
  constructor
  · intro st hst hcon
    subst hst
    have h1 : ((some st).any
        fun st => !((yarnStates.map Prod.fst).contains st)) = true := by
      show (!((yarnStates.map Prod.fst).contains st)) = true
      rw [hcon]
      rfl
    simp only [cluster_applications, he]
    rw [if_pos h1]
    rfl
  · intro fs hfs hstOK hcon
    subst hfs
    have h1 : (state.any
        fun st => !((yarnStates.map Prod.fst).contains st)) = false := by
      cases state with
      | none => rfl
      | some st =>
        have hst' : (yarnStates.map Prod.fst).contains st = true := hstOK
        show (!((yarnStates.map Prod.fst).contains st)) = false
        rw [hst']
        rfl
    have h2 : ((some fs).any
        fun fs => !((finalStatuses.map Prod.fst).contains fs)) = true := by
      show (!((finalStatuses.map Prod.fst).contains fs)) = true
      rw [hcon]
      rfl
    simp only [cluster_applications, he]
    rw [if_neg (by rw [h1]; exact Bool.false_ne_true), if_pos h2]
    rfl

/-- C6 witness: calling with `state='BOGUS'` against the legal set
containing only `RUNNING` yields the `IllegalArgumentError` naming
`BOGUS`, with no issued request. -/
theorem cluster_applications_validation_witness :
    cluster_applications [("RUNNING", "r")] [("SUCCEEDED", "s")] plainState
        (some "BOGUS") none none none none none none none none
        (fun h => Except.ok h : Nat → Except PyExc Nat) 200 0
      = ⟨none, Except.error (PyErr.illegalArgumentError
          ("Yarn Application State " ++ "BOGUS" ++ " is illegal")), none⟩ :=
  (cluster_applications_validation [("RUNNING", "r")] [("SUCCEEDED", "s")]
      plainState "/ws/v1/cluster" rfl (some "BOGUS") none none none none none
      none none none (fun h => Except.ok h) 200 0).1 "BOGUS" rfl (by decide)
